/-
Verification of the opportunity-detection and event-matching engine of the
nodoai prediction-market scanner.

Shallow embedding conventions:
* Python floats are modelled as rationals (ℚ); all the arithmetic the
  detectors perform (+, -, *, /, comparisons, abs, min, max) is exact on
  the inputs considered, so ℚ is a faithful carrier and "within floating
  tolerance" statements become exact rational statements.
* Python float division raises `ZeroDivisionError` when the divisor is 0;
  this is modelled by `pdiv`, which returns `Except String ℚ`, and the
  detection functions that contain unguarded divisions return
  `Except String _` so that the exception path of the source is visible.
* Python dicts keyed by strings are modelled as association lists in
  insertion order (updating an existing key keeps its position, which is
  Python dict semantics).
* Presentation-only string fields of the source records (log messages,
  explanations, `logic_error`, `action`, `match_reason`, md5 event ids)
  are not modelled; no detection decision depends on them.
-/
import Mathlib

set_option maxRecDepth 4000

deriving instance DecidableEq for Except

/-- Python float division: raises `ZeroDivisionError` on a zero divisor. -/
def pdiv (a b : ℚ) : Except String ℚ :=
  if b = 0 then Except.error "ZeroDivisionError" else Except.ok (a / b)

/-- Python dict insertion on an association list: an existing key keeps its
position and gets the new value, a new key is appended at the end. -/
def dictInsert (l : List (String × ℚ)) (k : String) (v : ℚ) : List (String × ℚ) :=
  if l.any (fun p => p.1 = k) then
    l.map (fun p => if p.1 = k then (k, v) else p)
  else
    l ++ [(k, v)]

namespace ArbScan

/-- `Market` from `polymarket_client.py` (the fields the scanner reads). -/
structure Market where
  id : String
  question : String
  active : Bool
  closed : Bool
  outcomes : List String
  outcome_prices : List ℚ
  volume : ℚ
  deriving Repr, DecidableEq

/-- `Config.TRADING_FEE` from `config.py` (2% fee on winnings). -/
def TRADING_FEE : ℚ := 2 / 100

/-- `Config.MIN_PROFIT_THRESHOLD` default from `config.py` (in %). -/
def MIN_PROFIT_THRESHOLD : ℚ := 1 / 2

/-- `ArbitrageOpportunity` from `arbitrage_scanner.py` (market field omitted,
the derived numeric fields and the allocation dict are kept). -/
structure ArbitrageOpportunity where
  type : String
  total_cost : ℚ
  gross_profit_pct : ℚ
  net_profit_pct : ℚ
  optimal_allocation : List (String × ℚ)
  deriving Repr, DecidableEq

/-- The allocation loop of `_analyze_market`:
`for i, outcome in enumerate(market.outcomes): alloc[outcome] = prices[i] / total_cost`.
A missing index raises `IndexError`, a zero `total_cost` would raise
`ZeroDivisionError` (unreachable here: the gross-profit division runs first). -/
def allocLoop (outcomes : List String) (prices : List ℚ) (total_cost : ℚ) :
    Except String (List (String × ℚ)) :=
  go outcomes 0 []
where
  go : List String → Nat → List (String × ℚ) → Except String (List (String × ℚ))
    | [], _, acc => Except.ok acc
    | name :: rest, i, acc =>
      match prices[i]? with
      | none => Except.error "IndexError"
      | some p =>
        match pdiv p total_cost with
        | Except.error e => Except.error e
        | Except.ok r => go rest (i + 1) (dictInsert acc name r)

/-- `ArbitrageScanner._analyze_market` from `arbitrage_scanner.py`. -/
def analyze_market (market : Market) : Except String (Option ArbitrageOpportunity) :=
  if market.closed || !market.active then Except.ok none
  else if market.outcome_prices.length < 2 then Except.ok none
  else
    let total_cost := market.outcome_prices.sum
    if total_cost ≥ 1 then Except.ok none
    else
      match pdiv (1 - total_cost) total_cost with
      | Except.error e => Except.error e
      | Except.ok g =>
        let gross_profit_pct := g * 100
        match pdiv 1 total_cost with
        | Except.error e => Except.error e
        | Except.ok payout_per_dollar =>
          let fee_pct := TRADING_FEE * payout_per_dollar * 100
          let net_profit_pct := gross_profit_pct - fee_pct
          match allocLoop market.outcomes market.outcome_prices total_cost with
          | Except.error e => Except.error e
          | Except.ok alloc =>
            let arb_type := if market.outcomes.length = 2 then "binary" else "multi_outcome"
            Except.ok (some {
              type := arb_type
              total_cost := total_cost
              gross_profit_pct := gross_profit_pct
              net_profit_pct := net_profit_pct
              optimal_allocation := alloc })

end ArbScan

namespace CrossScan

/-- `PlatformOutcome` from `platforms/base.py`. -/
structure PlatformOutcome where
  name : String
  price : ℚ
  deriving Repr, DecidableEq

/-- `PlatformMarket` from `platforms/base.py` (the fields the cross-platform
scanner and the event matcher read). -/
structure PlatformMarket where
  platform : String
  market_id : String
  question : String
  outcomes : List PlatformOutcome
  volume : ℚ
  active : Bool
  resolved : Bool
  deriving Repr, DecidableEq

/-- `PlatformMarket.best_yes_price`: first outcome named yes/true
(case-insensitive), else the first outcome, else `None`. -/
def best_yes_price (m : PlatformMarket) : Option ℚ :=
  match m.outcomes.find? (fun o => o.name.toLower = "yes" || o.name.toLower = "true") with
  | some o => some o.price
  | none => m.outcomes.head?.map (fun o => o.price)

/-- `PlatformMarket.best_no_price`: first outcome named no/false
(case-insensitive), else the second outcome, else `None`. -/
def best_no_price (m : PlatformMarket) : Option ℚ :=
  match m.outcomes.find? (fun o => o.name.toLower = "no" || o.name.toLower = "false") with
  | some o => some o.price
  | none => m.outcomes[1]?.map (fun o => o.price)

/-- The markets dict of a `MatchedEvent` (platform → market, insertion order). -/
structure MatchedEvent where
  markets : List (String × PlatformMarket)
  deriving Repr, DecidableEq

/-- `CrossPlatformArbitrage` from `cross_platform_scanner.py` (event field
omitted; the numeric decision fields are kept). -/
structure CrossPlatformArbitrage where
  yes_platform : String
  yes_price : ℚ
  no_platform : String
  no_price : ℚ
  total_cost : ℚ
  gross_profit_pct : ℚ
  net_profit_pct : ℚ
  yes_platform_fee : ℚ
  no_platform_fee : ℚ
  deriving Repr, DecidableEq

/-- The `yes_prices` dict built by `_find_arbitrage`: platforms whose
`best_yes_price` is truthy (not `None`, not 0) and `> 0`. -/
def yesPrices (event : MatchedEvent) : List (String × ℚ) :=
  event.markets.filterMap (fun pm =>
    match best_yes_price pm.2 with
    | some p => if p ≠ 0 ∧ p > 0 then some (pm.1, p) else none
    | none => none)

/-- The `no_prices` dict built by `_find_arbitrage`. -/
def noPrices (event : MatchedEvent) : List (String × ℚ) :=
  event.markets.filterMap (fun pm =>
    match best_no_price pm.2 with
    | some p => if p ≠ 0 ∧ p > 0 then some (pm.1, p) else none
    | none => none)

/-- Python `min(items, key=lambda x: x[1])`: the first entry attaining the
minimal value (later entries replace only on strictly smaller value). -/
def minByPrice (l : List (String × ℚ)) : Option (String × ℚ) :=
  match l with
  | [] => none
  | x :: xs => some (xs.foldl (fun acc y => if y.2 < acc.2 then y else acc) x)

/-- `CrossPlatformScanner._find_arbitrage` from `cross_platform_scanner.py`.
`fees` stands for the scanner's `self.platforms` trading-fee lookup
(`platforms.get(name)` then `.trading_fee if platform else 0.02`). The two
divisions by `total_cost` cannot hit zero: every collected price is positive,
so plain rational division is exact here. -/
def find_arbitrage (fees : List (String × ℚ)) (event : MatchedEvent) :
    List CrossPlatformArbitrage :=
  let yes_prices := yesPrices event
  let no_prices := noPrices event
  if yes_prices.length < 1 ∨ no_prices.length < 1 then []
  else
    match minByPrice yes_prices, minByPrice no_prices with
    | some best_yes, some best_no =>
      let total_cost := best_yes.2 + best_no.2
      if total_cost ≥ 1 then []
      else if best_yes.1 = best_no.1 then []
      else
        let yes_fee := ((fees.find? (fun f => f.1 = best_yes.1)).map (fun f => f.2)).getD (2 / 100)
        let no_fee := ((fees.find? (fun f => f.1 = best_no.1)).map (fun f => f.2)).getD (2 / 100)
        let gross_profit := 1 - total_cost
        let gross_profit_pct := gross_profit / total_cost * 100
        let avg_fee := (yes_fee + no_fee) / 2
        let net_profit := gross_profit - avg_fee
        let net_profit_pct := net_profit / total_cost * 100
        [{ yes_platform := best_yes.1
           yes_price := best_yes.2
           no_platform := best_no.1
           no_price := best_no.2
           total_cost := total_cost
           gross_profit_pct := gross_profit_pct
           net_profit_pct := net_profit_pct
           yes_platform_fee := yes_fee
           no_platform_fee := no_fee }]
    | _, _ => []

end CrossScan

namespace DeltaScan

/-- The parsed-market dict built by `DeltaScanner._parse_market`
(`id`, `question`, `yes_price`, `no_price`, `volume`, `threshold`, `topic`,
`direction`; the url string is presentation only). -/
structure DMarket where
  id : String
  question : String
  yes_price : ℚ
  no_price : ℚ
  volume : ℚ
  threshold : Option ℚ
  topic : String
  direction : String
  deriving Repr, DecidableEq

/-- `DeltaOpportunity` from `delta_scanner.py` (the formatted
`logic_error`/`action`/`explanation` strings are presentation only). -/
structure DeltaOpportunity where
  event_a : DMarket
  event_b : DMarket
  topic : String
  profit_potential : ℚ
  confidence : Nat
  deriving Repr, DecidableEq

/-- Python truthiness of `m.get("threshold")`: not `None` and not 0. -/
def thresholdTruthy (m : DMarket) : Bool :=
  match m.threshold with
  | some t => decide (t ≠ 0)
  | none => false

/-- Stable insertion into a list sorted ascending by `key` (an element is
placed before the first strictly larger key, hence after equal keys). -/
def insertSorted (key : DMarket → ℚ) (x : DMarket) : List DMarket → List DMarket
  | [] => [x]
  | y :: ys => if key x < key y then x :: y :: ys else y :: insertSorted key x ys

/-- Stable ascending sort by `key`, the semantics of Python
`list.sort(key=...)`. -/
def sortByKey (key : DMarket → ℚ) : List DMarket → List DMarket
  | [] => []
  | x :: xs => insertSorted key x (sortByKey key xs)

/-- The adjacent pairs `(l[i], l[i+1])` visited by `for i in range(len(l)-1)`. -/
def adjacentPairs : List DMarket → List (DMarket × DMarket)
  | a :: b :: rest => (a, b) :: adjacentPairs (b :: rest)
  | _ => []

/-- The body of the reach-market pair loop of `_find_inconsistencies`
(rules 1 and 2): skip near-equal thresholds, then emit the strict violation
(confidence 90), `elif` the near-miss advisory (confidence 60). -/
def reachPairRule (topic : String) (lower higher : DMarket) :
    Except String (List DeltaOpportunity) :=
  match pdiv (higher.threshold.getD 0) (lower.threshold.getD 0) with
  | Except.error e => Except.error e
  | Except.ok ratio =>
    if ratio < 11 / 10 then Except.ok []
    else if higher.yes_price > lower.yes_price ∧ lower.yes_price > 1 / 1000 then
      let diff := higher.yes_price - lower.yes_price
      let profit := diff / max lower.yes_price (1 / 100) * 100
      Except.ok [{ event_a := higher, event_b := lower, topic := topic
                   profit_potential := min profit 500, confidence := 90 }]
    else if |higher.yes_price - lower.yes_price| < 2 / 100 ∧ lower.yes_price > 5 / 100 then
      Except.ok [{ event_a := higher, event_b := lower, topic := topic
                   profit_potential := 5, confidence := 60 }]
    else Except.ok []

/-- The body of the dip-market pair loop of `_find_inconsistencies` (rule 3
of the source comments): violation when the lower dip is priced above the
higher dip. The profit division is floored at 0.01, so it cannot raise. -/
def dipPairRule (topic : String) (lower higher : DMarket) : List DeltaOpportunity :=
  if lower.yes_price > higher.yes_price ∧ higher.yes_price > 1 / 1000 then
    let diff := lower.yes_price - higher.yes_price
    let profit := diff / max higher.yes_price (1 / 100) * 100
    [{ event_a := lower, event_b := higher, topic := topic
       profit_potential := min profit 500, confidence := 85 }]
  else []

/-- The in-market arbitrage rule of `_find_inconsistencies`: for every
threshold-bearing market with `yes+no < 0.95` and `volume > 5000`, emit a
same-market opportunity; the division by `total` is unguarded. -/
def inMarketRule (topic : String) (m : DMarket) : Except String (List DeltaOpportunity) :=
  let total := m.yes_price + m.no_price
  if total < 95 / 100 ∧ m.volume > 5000 then
    match pdiv (1 - total) total with
    | Except.error e => Except.error e
    | Except.ok p =>
      Except.ok [{ event_a := m, event_b := m, topic := topic
                   profit_potential := p * 100, confidence := 95 }]
  else Except.ok []

/-- Run a fallible pair/market rule over a list, concatenating the emitted
opportunities, aborting at the first raised exception (the Python loop). -/
def runRule {α : Type} (rule : α → Except String (List DeltaOpportunity)) :
    List α → Except String (List DeltaOpportunity)
  | [] => Except.ok []
  | x :: xs =>
    match rule x with
    | Except.error e => Except.error e
    | Except.ok l =>
      match runRule rule xs with
      | Except.error e => Except.error e
      | Except.ok rest => Except.ok (l ++ rest)

/-- `DeltaScanner._find_inconsistencies` from `delta_scanner.py`: rules 1–2
over adjacent sorted reach markets, the dip rule over adjacent sorted dip
markets, then the in-market arbitrage rule over all threshold markets. -/
def find_inconsistencies (topic : String) (markets : List DMarket) :
    Except String (List DeltaOpportunity) :=
  let reach := sortByKey (fun m => m.threshold.getD 0)
    (markets.filter (fun m =>
      thresholdTruthy m && (m.direction = "above" || m.direction = "reach")))
  match runRule (fun p => reachPairRule topic p.1 p.2) (adjacentPairs reach) with
  | Except.error e => Except.error e
  | Except.ok r1 =>
    let dip := sortByKey (fun m => m.threshold.getD 0)
      (markets.filter (fun m => thresholdTruthy m && m.direction = "below"))
    let r2 := (adjacentPairs dip).flatMap (fun p => dipPairRule topic p.1 p.2)
    let all_threshold := markets.filter thresholdTruthy
    match runRule (inMarketRule topic) all_threshold with
    | Except.error e => Except.error e
    | Except.ok r3 => Except.ok (r1 ++ r2 ++ r3)

/-- Substring search over character lists (Python `pat in s`). -/
def subAux (p : List Char) : List Char → Bool
  | [] => p.isEmpty
  | c :: rest => List.isPrefixOf p (c :: rest) || subAux p rest

/-- Python `pat in s` on strings. -/
def isSubstrOf (pat s : String) : Bool :=
  subAux pat.toList s.toList

/-- The character set of `w.strip('?,."\x27()[]')` in `_extract_topic`. -/
def isStripChar (c : Char) : Bool :=
  c = '?' || c = ',' || c = '.' || c = '"' || c = '\'' || c = '(' || c = ')' ||
    c = '[' || c = ']'

/-- Python `w.strip('?,."\x27()[]')`: drop those characters from both ends. -/
def stripPunct (w : String) : String :=
  String.mk (((w.toList.dropWhile isStripChar).reverse.dropWhile isStripChar).reverse)

/-- The `skip_words` set of `_extract_topic`. -/
def skipWords : List String :=
  ["will", "the", "be", "is", "are", "have", "has", "do", "does",
   "can", "could", "would", "should", "what", "when", "where", "who",
   "how", "why", "any", "all", "each", "every", "this", "that"]

/-- The fallback of `_extract_topic`: the first whitespace-separated word
that, stripped of punctuation, is capitalized, longer than 2 characters and
not a skip word, truncated to 12 characters; else `OTHER`. -/
def fallbackTopic (question : String) : String :=
  match ((question.split Char.isWhitespace).filter (fun w => w ≠ "")).findSome?
      (fun w =>
        let clean := stripPunct w
        match clean.toList with
        | [] => none
        | c :: _ =>
          if c.isUpper ∧ clean.length > 2 ∧ ¬ skipWords.contains clean.toLower then
            some (String.mk (clean.toList.take 12))
          else none) with
  | some t => t
  | none => "OTHER"

/-- `DeltaScanner._extract_topic` from `delta_scanner.py`: an if/elif chain of
substring tests over the lowercased question, then the capitalized-word
fallback. -/
def extract_topic (question : String) : String :=
  let q := question.toLower
  if isSubstrOf "bitcoin" q || isSubstrOf "btc" q then "BTC"
  else if isSubstrOf "ethereum" q || isSubstrOf "eth" q then "ETH"
  else if isSubstrOf "solana" q || isSubstrOf "sol " q then "SOL"
  else if isSubstrOf "xrp" q || isSubstrOf "ripple" q then "XRP"
  else if isSubstrOf "dogecoin" q || isSubstrOf "doge" q then "DOGE"
  else if isSubstrOf "trump" q then "TRUMP"
  else if isSubstrOf "biden" q then "BIDEN"
  else if isSubstrOf "harris" q then "HARRIS"
  else if isSubstrOf "musk" q || isSubstrOf "elon" q then "MUSK"
  else if isSubstrOf "fed" q || isSubstrOf "interest rate" q ||
      isSubstrOf "federal reserve" q then "FED_RATE"
  else if isSubstrOf "inflation" q || isSubstrOf "cpi" q then "INFLATION"
  else if isSubstrOf "gdp" q then "GDP"
  else if isSubstrOf "tesla" q || isSubstrOf "tsla" q then "TESLA"
  else if isSubstrOf "sp500" q || isSubstrOf "s&p" q || isSubstrOf "spy" q then "SP500"
  else if isSubstrOf "nasdaq" q || isSubstrOf "qqq" q then "NASDAQ"
  else if isSubstrOf "nvidia" q || isSubstrOf "nvda" q then "NVIDIA"
  else fallbackTopic question

/-- The category/keyword table of `_extract_topic`, in declaration order. -/
def topicCategories : List (String × List String) :=
  [("BTC", ["bitcoin", "btc"]),
   ("ETH", ["ethereum", "eth"]),
   ("SOL", ["solana", "sol "]),
   ("XRP", ["xrp", "ripple"]),
   ("DOGE", ["dogecoin", "doge"]),
   ("TRUMP", ["trump"]),
   ("BIDEN", ["biden"]),
   ("HARRIS", ["harris"]),
   ("MUSK", ["musk", "elon"]),
   ("FED_RATE", ["fed", "interest rate", "federal reserve"]),
   ("INFLATION", ["inflation", "cpi"]),
   ("GDP", ["gdp"]),
   ("TESLA", ["tesla", "tsla"]),
   ("SP500", ["sp500", "s&p", "spy"]),
   ("NASDAQ", ["nasdaq", "qqq"]),
   ("NVIDIA", ["nvidia", "nvda"])]

/-- First category of the table one of whose keywords occurs in `q`. -/
def firstCategory (q : String) : List (String × List String) → Option String
  | [] => none
  | (tag, kws) :: rest =>
    if kws.any (fun k => isSubstrOf k q) then some tag else firstCategory q rest

/-- The topic extractor as the amended spec words it: the first category (in
declaration order) with a keyword occurring in the lowercased question, else
the capitalized-word fallback. -/
def extract_topic_decl (question : String) : String :=
  (firstCategory question.toLower topicCategories).getD (fallbackTopic question)

/-- True when some category keyword occurs in the lowercased question. -/
def anyCategoryHit (question : String) : Bool :=
  (firstCategory question.toLower topicCategories).isSome

end DeltaScan

namespace Matcher

open CrossScan

/-- `EventMatcher.ENTITIES` from `event_matcher.py`. -/
def ENTITIES : List String :=
  ["trump", "biden", "harris", "vance", "newsom", "desantis", "musk", "elon",
   "starmer", "keir", "putin", "zelensky", "xi", "macron", "scholz", "modi",
   "khamenei", "netanyahu", "trudeau", "milei", "altman", "zuckerberg",
   "nato", "fed", "sec", "congress", "senate", "supreme", "court",
   "spacex", "tesla", "openai", "twitter", "meta", "google",
   "ukraine", "russia", "china", "iran", "israel", "gaza", "greenland",
   "taiwan", "uk", "britain", "us", "usa", "america",
   "recession", "ceasefire", "war", "pandemic", "bitcoin", "btc", "crypto",
   "election", "president", "impeach", "veto"]

/-- `EventMatcher.YEARS` from `event_matcher.py`. -/
def YEARS : List String := ["2024", "2025", "2026", "2027", "2028"]

/-- The action-word set of `_extract_keywords`. -/
def ACTIONS : List String :=
  ["win", "lose", "leave", "remain", "resign", "ceasefire",
   "recession", "cut", "raise", "reach", "hit", "join"]

/-- The strings matched by the year regex `\b(202[4-9])\b`. -/
def YEAR_TOKENS : List String := ["2024", "2025", "2026", "2027", "2028", "2029"]

/-- Regex word character (`\w`): alphanumeric or underscore. -/
def isWordChar (c : Char) : Bool := c.isAlphanum || c = '_'

/-- Split a character list into maximal word-character runs; the first
argument accumulates the current run in reverse. -/
def tokensAux (acc : List Char) : List Char → List String
  | [] => if acc.isEmpty then [] else [String.mk acc.reverse]
  | c :: rest =>
    if isWordChar c then tokensAux (c :: acc) rest
    else if acc.isEmpty then tokensAux [] rest
    else String.mk acc.reverse :: tokensAux [] rest

/-- Maximal word-character runs of a string. The regexes of
`_extract_keywords` (`\b[a-z0-9]+\b` over the lowercased text and
`\b(202[4-9])\b` over the original) match exactly the runs that lie in the
respective vocabulary: a vocabulary word contains neither `_` nor an
uppercase letter, so a run containing one never matches, and `\b` holds at
the edges of a maximal run. -/
def wordTokens (s : String) : List String := tokensAux [] s.toList

/-- Set intersection on deduplicated keyword lists. -/
def kwInter (a b : List String) : List String := a.filter (fun x => b.contains x)

/-- Set union on deduplicated keyword lists. -/
def kwUnion (a b : List String) : List String := a ++ b.filter (fun x => !a.contains x)

/-- `EventMatcher._extract_keywords` from `event_matcher.py`: entities and
action words among the lowercased word tokens, plus years found in the
original text. -/
def extract_keywords (text : String) : List String :=
  let words := (wordTokens text.toLower).eraseDups
  let entities := words.filter (fun w => ENTITIES.contains w)
  let years := ((wordTokens text).filter (fun w => YEAR_TOKENS.contains w)).eraseDups
  let actions := words.filter (fun w => ACTIONS.contains w)
  kwUnion (kwUnion entities years) actions

/-- `EventMatcher._calculate_similarity` from `event_matcher.py` (score only;
the `reason` string is presentation only): Jaccard index of the keyword sets
plus a 0.2 entity bonus plus a 0.15 year bonus, capped at 1. -/
def calculate_similarity (kw1 kw2 : List String) : ℚ :=
  if kw1.isEmpty || kw2.isEmpty then 0
  else
    let common := kwInter kw1 kw2
    if common.isEmpty then 0
    else
      let union := kwUnion kw1 kw2
      let jaccard : ℚ := (common.length : ℚ) / (union.length : ℚ)
      let entity_bonus : ℚ := if (kwInter common ENTITIES).isEmpty then 0 else 2 / 10
      let year_bonus : ℚ := if (kwInter common YEARS).isEmpty then 0 else 15 / 100
      min (jaccard + entity_bonus + year_bonus) 1

/-- The default `similarity_threshold` of `EventMatcher.__init__`. -/
def SIMILARITY_THRESHOLD : ℚ := 45 / 100

/-- `MatchedEvent` from `event_matcher.py` (markets dict, confidence,
keywords; the md5 `event_id`, `name`, `category` and `match_reason`
presentation fields are not modelled). -/
structure MatchedEvent where
  markets : List (String × PlatformMarket)
  confidence : ℚ
  keywords : List String
  deriving Repr, DecidableEq

/-- The `used_markets` key `f"{platform}:{market_id}"`. -/
def marketKey (m : PlatformMarket) : String := m.platform ++ ":" ++ m.market_id

/-- Adding to the `used_markets` set. -/
def usedAdd (used : List String) (k : String) : List String :=
  if used.contains k then used else used ++ [k]

/-- The `by_platform` dict of `match_markets`: platforms in first-appearance
order, each with its markets in input order. -/
def groupByPlatform (l : List PlatformMarket) : List (String × List PlatformMarket) :=
  l.foldl (fun groups m =>
    if groups.any (fun g => g.1 = m.platform) then
      groups.map (fun g => if g.1 = m.platform then (g.1, g.2 ++ [m]) else g)
    else groups ++ [(m.platform, [m])]) []

/-- The best-candidate loop of `match_markets` over one other platform:
starting from `best_score = 0`, keep a candidate scoring strictly above the
current best and at least the threshold. -/
def bestCandidate (threshold : ℚ) (used : List String) (kw1 : List String)
    (cands : List PlatformMarket) : Option (PlatformMarket × ℚ) :=
  cands.foldl (fun acc c =>
    if used.contains (marketKey c) then acc
    else
      let score := calculate_similarity kw1 (extract_keywords c.question)
      let best_score : ℚ := match acc with | none => 0 | some bs => bs.2
      if score > best_score ∧ score ≥ threshold then some (c, score) else acc) none

/-- The per-primary-market event construction of `match_markets`: the primary
market plus each unconsumed matched candidate, tracking max confidence and
the consumed keys. -/
def buildEvent (m : PlatformMarket) (used : List String)
    (found : List (PlatformMarket × ℚ)) :
    List (String × PlatformMarket) × ℚ × List String :=
  found.foldl (fun st mc =>
    let mkey := marketKey mc.1
    if st.2.2.contains mkey then st
    else (st.1 ++ [(mc.1.platform, mc.1)], max st.2.1 mc.2, usedAdd st.2.2 mkey))
    ([(m.platform, m)], 0, usedAdd used (marketKey m))

/-- The main loop of `match_markets` over the primary platform's markets,
threading the `used_markets` set and the emitted events. -/
def matchLoop (threshold : ℚ) (others : List (String × List PlatformMarket)) :
    List PlatformMarket → List String → List MatchedEvent → List MatchedEvent
  | [], _, events => events
  | m :: rest, used, events =>
    if used.contains (marketKey m) then matchLoop threshold others rest used events
    else
      let kw := extract_keywords m.question
      if kw.isEmpty then matchLoop threshold others rest used events
      else
        let found := others.filterMap (fun g => bestCandidate threshold used kw g.2)
        if found.isEmpty then
          matchLoop threshold others rest (usedAdd used (marketKey m)) events
        else
          let built := buildEvent m used found
          let event : MatchedEvent :=
            { markets := built.1, confidence := built.2.1, keywords := kw }
          let events2 := if built.1.length > 1 then events ++ [event] else events
          matchLoop threshold others rest (usedAdd built.2.2 (marketKey m)) events2

/-- `EventMatcher.match_markets` from `event_matcher.py`: group by platform,
treat the first platform as primary, greedily match its markets against the
other platforms. -/
def match_markets (threshold : ℚ) (markets : List PlatformMarket) : List MatchedEvent :=
  if markets.isEmpty then []
  else
    match groupByPlatform markets with
    | [] => []
    | main :: others => matchLoop threshold others main.2 [] []

end Matcher

/-! ## Theorems -/

/-- The Python `min(..., key=...)` fold stays inside the candidate list. -/
theorem foldlMin_mem (xs : List (String × ℚ)) (x : String × ℚ) :
    xs.foldl (fun acc y => if y.2 < acc.2 then y else acc) x ∈ x :: xs := by
  induction xs generalizing x with
  | nil => simp
  | cons y ys ih =>
    simp only [List.foldl_cons]
    by_cases h : y.2 < x.2
    · rw [if_pos h]
      exact List.mem_cons_of_mem x (ih y)
    · rw [if_neg h]
      rcases List.mem_cons.mp (ih x) with h1 | h1
      · simp [h1]
      · simp [List.mem_cons_of_mem, h1]

/-- A selected minimum is one of the collected platform prices. -/
theorem minByPrice_mem (l : List (String × ℚ)) (z : String × ℚ)
    (h : CrossScan.minByPrice l = some z) : z ∈ l := by
  cases l with
  | nil => simp [CrossScan.minByPrice] at h
  | cons x xs =>
    simp only [CrossScan.minByPrice, Option.some_inj] at h
    rw [← h]
    exact foldlMin_mem xs x

/-- Every price collected into the `yes_prices` dict is positive. -/
theorem yesPrices_pos (event : CrossScan.MatchedEvent) (z : String × ℚ)
    (hz : z ∈ CrossScan.yesPrices event) : 0 < z.2 := by
  unfold CrossScan.yesPrices at hz
  rw [List.mem_filterMap] at hz
  obtain ⟨pm, -, hf⟩ := hz
  revert hf
  cases CrossScan.best_yes_price pm.2 with
  | none => simp
  | some p =>
    simp only []
    split
    · rename_i hc
      intro hs
      cases hs
      exact hc.2
    · simp

/-- Every price collected into the `no_prices` dict is positive. -/
theorem noPrices_pos (event : CrossScan.MatchedEvent) (z : String × ℚ)
    (hz : z ∈ CrossScan.noPrices event) : 0 < z.2 := by
  unfold CrossScan.noPrices at hz
  rw [List.mem_filterMap] at hz
  obtain ⟨pm, -, hf⟩ := hz
  revert hf
  cases CrossScan.best_no_price pm.2 with
  | none => simp
  | some p =>
    simp only []
    split
    · rename_i hc
      intro hs
      cases hs
      exact hc.2
    · simp

/-- C4: when the argmin YES platform and the argmin NO platform coincide,
`_find_arbitrage` emits nothing for the event, with no condition on the sum
of the two prices. -/
theorem cross_same_platform_no_emission (fees : List (String × ℚ))
    (event : CrossScan.MatchedEvent) (pf : String) (py pn : ℚ)
    (hy : CrossScan.minByPrice (CrossScan.yesPrices event) = some (pf, py))
    (hn : CrossScan.minByPrice (CrossScan.noPrices event) = some (pf, pn)) :
    CrossScan.find_arbitrage fees event = [] := by
  simp only [CrossScan.find_arbitrage]
  rw [hy, hn]
  simp

/-- C4 witness: polymarket quotes 0.30/0.40, kalshi 0.50/0.60 — both argmins
are polymarket, the total 0.70 is below 1, nothing is emitted. -/
theorem cross_same_platform_no_emission_witness :
    CrossScan.find_arbitrage []
      { markets :=
          [("polymarket",
            { platform := "polymarket"
              market_id := "p1"
              question := "q"
              outcomes := [{ name := "Yes", price := 3/10 }, { name := "No", price := 2/5 }]
              volume := 0
              active := true
              resolved := false }),
           ("kalshi",
            { platform := "kalshi"
              market_id := "k1"
              question := "q"
              outcomes := [{ name := "Yes", price := 1/2 }, { name := "No", price := 3/5 }]
              volume := 0
              active := true
              resolved := false })] } = [] :=
  cross_same_platform_no_emission [] _ "polymarket" (3/10) (2/5)
    (by with_unfolding_all rfl) (by with_unfolding_all rfl)

/-- C10: every emitted cross-platform opportunity has positive YES and NO
prices, a total cost strictly between 0 and 1, and a (finite, rational)
positive gross profit percentage. -/
theorem cross_emitted_invariants (fees : List (String × ℚ))
    (event : CrossScan.MatchedEvent) (opp : CrossScan.CrossPlatformArbitrage)
    (hmem : opp ∈ CrossScan.find_arbitrage fees event) :
    0 < opp.yes_price ∧ 0 < opp.no_price ∧ 0 < opp.total_cost ∧ opp.total_cost < 1
    ∧ 0 < opp.gross_profit_pct := by
  simp only [CrossScan.find_arbitrage] at hmem
  split at hmem
  · simp at hmem
  · split at hmem
    · rename_i best_yes best_no heqy heqn
      split at hmem
      · simp at hmem
      · split at hmem
        · simp at hmem
        · rename_i hnotge hne
          rw [List.mem_singleton] at hmem
          subst hmem
          have hy : 0 < best_yes.2 :=
            yesPrices_pos event best_yes (minByPrice_mem _ _ heqy)
          have hn : 0 < best_no.2 :=
            noPrices_pos event best_no (minByPrice_mem _ _ heqn)
          have htot : 0 < best_yes.2 + best_no.2 := add_pos hy hn
          have hlt : best_yes.2 + best_no.2 < 1 := not_le.mp hnotge
          refine ⟨hy, hn, htot, hlt, ?_⟩
          have : 0 < (1 - (best_yes.2 + best_no.2)) / (best_yes.2 + best_no.2) :=
            div_pos (by linarith) htot
          have h100 : (0 : ℚ) < 100 := by norm_num
          exact mul_pos this h100
    · simp at hmem

/-- C10 witness: the invariants instantiated at the event where polymarket
quotes YES at 0.50 and kalshi quotes NO at 0.47. -/
theorem cross_emitted_invariants_witness :
    0 < (1/2 : ℚ) ∧ 0 < (47/100 : ℚ) ∧ 0 < (97/100 : ℚ) ∧ (97/100 : ℚ) < 1
    ∧ 0 < (300/97 : ℚ) :=
  cross_emitted_invariants []
    { markets :=
        [("polymarket",
          { platform := "polymarket"
            market_id := "p2"
            question := "q"
            outcomes := [{ name := "Yes", price := 1/2 }, { name := "No", price := 13/25 }]
            volume := 0
            active := true
            resolved := false }),
         ("kalshi",
          { platform := "kalshi"
            market_id := "k2"
            question := "q"
            outcomes := [{ name := "Yes", price := 11/20 }, { name := "No", price := 47/100 }]
            volume := 0
            active := true
            resolved := false })] }
    { yes_platform := "polymarket"
      yes_price := 1/2
      no_platform := "kalshi"
      no_price := 47/100
      total_cost := 97/100
      gross_profit_pct := 300/97
      net_profit_pct := 100/97
      yes_platform_fee := 1/50
      no_platform_fee := 1/50 }
    (by with_unfolding_all decide)

/-- C5: three reach markets with thresholds 100000 < 150000 < 200000 (each
adjacent ratio ≥ 1.1). With YES prices 0.5, 0.3, 0.1 the delta detector
emits nothing; with YES prices 0.1, 0.3, 0.5 it emits exactly two
confidence-90 reach violations, one per adjacent pair. -/
theorem delta_reach_monotonicity :
    DeltaScan.find_inconsistencies "BTC"
      [⟨"a", "a", 1/2, 1/2, 2000, some 100000, "BTC", "reach"⟩,
       ⟨"b", "b", 3/10, 7/10, 2000, some 150000, "BTC", "reach"⟩,
       ⟨"c", "c", 1/10, 9/10, 2000, some 200000, "BTC", "reach"⟩] = Except.ok []
    ∧ DeltaScan.find_inconsistencies "BTC"
      [⟨"a", "a", 1/10, 9/10, 2000, some 100000, "BTC", "reach"⟩,
       ⟨"b", "b", 3/10, 7/10, 2000, some 150000, "BTC", "reach"⟩,
       ⟨"c", "c", 1/2, 1/2, 2000, some 200000, "BTC", "reach"⟩] = Except.ok
      [⟨⟨"b", "b", 3/10, 7/10, 2000, some 150000, "BTC", "reach"⟩,
        ⟨"a", "a", 1/10, 9/10, 2000, some 100000, "BTC", "reach"⟩, "BTC", 200, 90⟩,
       ⟨⟨"c", "c", 1/2, 1/2, 2000, some 200000, "BTC", "reach"⟩,
        ⟨"b", "b", 3/10, 7/10, 2000, some 150000, "BTC", "reach"⟩, "BTC", 200/3, 90⟩] := by
  constructor <;> with_unfolding_all rfl

/-- C6: an adjacent reach pair satisfying both the rule-1 violation condition
(0.11 > 0.10 > 0.001) and the rule-2 near-miss condition (|0.11-0.10| < 0.02,
0.10 > 0.05) with ratio 1.5 ≥ 1.1, yet the detector emits only the
confidence-90 violation — no confidence-60 advisory, because the near-miss
check is an `elif` of the violation check. -/
theorem delta_near_miss_suppressed_counterexample :
    ((11/100 : ℚ) > 1/10 ∧ (1/10 : ℚ) > 1/1000)
    ∧ (|(11/100 : ℚ) - 1/10| < 2/100 ∧ (1/10 : ℚ) > 5/100)
    ∧ ((150000 : ℚ)/100000 ≥ 11/10)
    ∧ DeltaScan.find_inconsistencies "BTC"
      [⟨"a", "a", 1/10, 17/20, 2000, some 100000, "BTC", "reach"⟩,
       ⟨"b", "b", 11/100, 17/20, 2000, some 150000, "BTC", "reach"⟩] = Except.ok
      [⟨⟨"b", "b", 11/100, 17/20, 2000, some 150000, "BTC", "reach"⟩,
        ⟨"a", "a", 1/10, 17/20, 2000, some 100000, "BTC", "reach"⟩, "BTC", 10, 90⟩] := by
  refine ⟨⟨?_, ?_⟩, ⟨?_, ?_⟩, ?_, ?_⟩
  · norm_num
  · norm_num
  · rw [abs_lt]
    constructor <;> norm_num
  · norm_num
  · norm_num
  · with_unfolding_all rfl

/-- C6 (amended): for an adjacent reach pair passing the threshold-ratio
filter, whenever the rule-1 violation condition holds the pair loop emits
exactly the confidence-90 violation — the confidence-60 near-miss advisory
is suppressed for that pair even if its condition also holds, since it sits
on the `elif` branch; it is emitted only when rule 1 does not fire. -/
theorem delta_violation_only_per_pair (topic : String)
    (lower higher : DeltaScan.DMarket) (t1 t2 : ℚ)
    (h1 : lower.threshold = some t1) (h2 : higher.threshold = some t2)
    (ht1 : t1 ≠ 0) (hratio : ¬ (t2 / t1 < 11/10))
    (hviol : higher.yes_price > lower.yes_price) (hlow : lower.yes_price > 1/1000) :
    DeltaScan.reachPairRule topic lower higher = Except.ok
      [{ event_a := higher
         event_b := lower
         topic := topic
         profit_potential :=
           min ((higher.yes_price - lower.yes_price) / max lower.yes_price (1/100) * 100) 500
         confidence := 90 }] := by
  unfold DeltaScan.reachPairRule pdiv
  rw [h1, h2]
  dsimp only [Option.getD_some]
  rw [if_neg ht1]
  dsimp only []
  rw [if_neg hratio, if_pos ⟨hviol, hlow⟩]

/-- C6 witness: the amended per-pair statement at the 0.10 / 0.11 pair. -/
theorem delta_violation_only_per_pair_witness :
    DeltaScan.reachPairRule "BTC"
      ⟨"a", "a", 1/10, 17/20, 2000, some 100000, "BTC", "reach"⟩
      ⟨"b", "b", 11/100, 17/20, 2000, some 150000, "BTC", "reach"⟩ = Except.ok
      [{ event_a := ⟨"b", "b", 11/100, 17/20, 2000, some 150000, "BTC", "reach"⟩
         event_b := ⟨"a", "a", 1/10, 17/20, 2000, some 100000, "BTC", "reach"⟩
         topic := "BTC"
         profit_potential := min (((11:ℚ)/100 - 1/10) / max (1/10) (1/100) * 100) 500
         confidence := 90 }] :=
  delta_violation_only_per_pair "BTC" _ _ 100000 150000 rfl rfl
    (by norm_num) (by norm_num) (by norm_num) (by norm_num)

/-- C7: a question in which no category keyword occurs yet the extractor
returns the capitalized word "France" rather than OTHER, and a question in
which the ETH keywords score more hits (two occurrences of "ethereum")
yet the earlier-declared BTC category wins by first match. -/
theorem topic_extract_counterexample :
    DeltaScan.anyCategoryHit "Will France invade?" = false
    ∧ DeltaScan.extract_topic "Will France invade?" = "France"
    ∧ DeltaScan.extract_topic "Bitcoin or Ethereum or Ethereum?" = "BTC" := by
  refine ⟨?_, ?_, ?_⟩ <;> with_unfolding_all rfl

/-- C7 (amended): the topic extractor returns the tag of the first category,
in declaration order, one of whose keywords occurs as a substring of the
lowercased question; when no category keyword occurs it returns the first
punctuation-stripped capitalized word of length > 2 outside the stop-word
list, truncated to 12 characters, and OTHER only when no such word exists. -/
theorem topic_extract_first_match (q : String) :
    DeltaScan.extract_topic q = DeltaScan.extract_topic_decl q := by
  unfold DeltaScan.extract_topic DeltaScan.extract_topic_decl DeltaScan.topicCategories
  simp only [DeltaScan.firstCategory, List.any_cons, List.any_nil, Bool.or_false,
    Bool.or_assoc, apply_ite (fun o : Option String => Option.getD o (DeltaScan.fallbackTopic q)),
    Option.getD_some, Option.getD_none]

/-- The matcher's main loop emits nothing when there is no other platform. -/
theorem matchLoop_nil_others (thr : ℚ) (ms : List CrossScan.PlatformMarket)
    (used : List String) (events : List Matcher.MatchedEvent) :
    Matcher.matchLoop thr [] ms used events = events := by
  induction ms generalizing used with
  | nil => rfl
  | cons m rest ih =>
    unfold Matcher.matchLoop
    simp only [List.filterMap_nil, List.isEmpty_nil, if_true]
    split
    · exact ih used
    · split
      · exact ih used
      · exact ih _

/-- Markets with disjoint keyword sets score a similarity of 0. -/
theorem disjoint_sim_zero (m1 m2 : CrossScan.PlatformMarket)
    (h : Matcher.kwInter (Matcher.extract_keywords m1.question)
      (Matcher.extract_keywords m2.question) = []) :
    Matcher.calculate_similarity (Matcher.extract_keywords m1.question)
      (Matcher.extract_keywords m2.question) = 0 := by
  simp only [Matcher.calculate_similarity]
  rw [h]
  simp

/-- Two markets with disjoint keyword sets are never grouped into an event. -/
theorem disjoint_no_match (m1 m2 : CrossScan.PlatformMarket)
    (h : Matcher.kwInter (Matcher.extract_keywords m1.question)
      (Matcher.extract_keywords m2.question) = []) :
    Matcher.match_markets Matcher.SIMILARITY_THRESHOLD [m1, m2] = [] := by
  have hsim := disjoint_sim_zero m1 m2 h
  have hbc : Matcher.bestCandidate Matcher.SIMILARITY_THRESHOLD []
      (Matcher.extract_keywords m1.question) [m2] = none := by
    unfold Matcher.bestCandidate
    simp [hsim]
  unfold Matcher.match_markets
  rw [if_neg (by simp)]
  by_cases hp : m1.platform = m2.platform
  · have hgroups : Matcher.groupByPlatform [m1, m2] = [(m1.platform, [m1, m2])] := by
      unfold Matcher.groupByPlatform
      simp [hp]
    rw [hgroups]
    exact matchLoop_nil_others _ _ _ _
  · have hgroups : Matcher.groupByPlatform [m1, m2]
        = [(m1.platform, [m1]), (m2.platform, [m2])] := by
      unfold Matcher.groupByPlatform
      simp [hp]
    rw [hgroups]
    show Matcher.matchLoop Matcher.SIMILARITY_THRESHOLD [(m2.platform, [m2])] [m1] [] [] = []
    unfold Matcher.matchLoop
    rw [if_neg (by simp)]
    dsimp only []
    by_cases hk : (Matcher.extract_keywords m1.question).isEmpty = true
    · rw [if_pos hk]
      rfl
    · rw [if_neg hk]
      simp only [List.filterMap_cons, hbc, List.filterMap_nil]
      rw [if_pos (by simp)]
      rfl

/-- C9: the similarity of keyword sets `{trump, election, 2024}` and
`{trump, 2024, win}` is Jaccard 1/2 plus the 0.2 entity bonus plus the 0.15
year bonus = 0.85, the two markets match at the default 0.45 threshold into
one two-platform event, and any two markets sharing zero keywords score 0
and are never matched, whatever their questions. -/
theorem matcher_similarity_and_matching :
    Matcher.extract_keywords "Trump 2024 election?" = ["trump", "election", "2024"]
    ∧ Matcher.extract_keywords "Trump 2024 win?" = ["trump", "2024", "win"]
    ∧ Matcher.calculate_similarity ["trump", "election", "2024"] ["trump", "2024", "win"]
        = 17/20
    ∧ Matcher.SIMILARITY_THRESHOLD ≤ 17/20
    ∧ Matcher.match_markets Matcher.SIMILARITY_THRESHOLD
        [{ platform := "polymarket"
           market_id := "a1"
           question := "Trump 2024 election?"
           outcomes := []
           volume := 0
           active := true
           resolved := false },
         { platform := "kalshi"
           market_id := "b1"
           question := "Trump 2024 win?"
           outcomes := []
           volume := 0
           active := true
           resolved := false }] =
        [{ markets :=
             [("polymarket",
               { platform := "polymarket"
                 market_id := "a1"
                 question := "Trump 2024 election?"
                 outcomes := []
                 volume := 0
                 active := true
                 resolved := false }),
              ("kalshi",
               { platform := "kalshi"
                 market_id := "b1"
                 question := "Trump 2024 win?"
                 outcomes := []
                 volume := 0
                 active := true
                 resolved := false })]
           confidence := 17/20
           keywords := ["trump", "election", "2024"] }]
    ∧ (∀ m1 m2 : CrossScan.PlatformMarket,
        Matcher.kwInter (Matcher.extract_keywords m1.question)
          (Matcher.extract_keywords m2.question) = [] →
        Matcher.calculate_similarity (Matcher.extract_keywords m1.question)
            (Matcher.extract_keywords m2.question) = 0
        ∧ Matcher.match_markets Matcher.SIMILARITY_THRESHOLD [m1, m2] = []) :=
  ⟨by with_unfolding_all rfl, by with_unfolding_all rfl, by with_unfolding_all rfl,
   by norm_num [Matcher.SIMILARITY_THRESHOLD], by with_unfolding_all rfl,
   fun m1 m2 h => ⟨disjoint_sim_zero m1 m2 h, disjoint_no_match m1 m2 h⟩⟩

/-- C9 witness: a bitcoin question and a nasdaq question share no keywords,
score 0 and produce no matched event. -/
theorem matcher_no_shared_keywords_witness :
    Matcher.calculate_similarity (Matcher.extract_keywords "Bitcoin above $100K?")
        (Matcher.extract_keywords "Nasdaq all time high?") = 0
    ∧ Matcher.match_markets Matcher.SIMILARITY_THRESHOLD
        [{ platform := "polymarket"
           market_id := "w1"
           question := "Bitcoin above $100K?"
           outcomes := []
           volume := 0
           active := true
           resolved := false },
         { platform := "kalshi"
           market_id := "w2"
           question := "Nasdaq all time high?"
           outcomes := []
           volume := 0
           active := true
           resolved := false }] = [] :=
  matcher_similarity_and_matching.2.2.2.2.2
    { platform := "polymarket"
      market_id := "w1"
      question := "Bitcoin above $100K?"
      outcomes := []
      volume := 0
      active := true
      resolved := false }
    { platform := "kalshi"
      market_id := "w2"
      question := "Nasdaq all time high?"
      outcomes := []
      volume := 0
      active := true
      resolved := false }
    (by with_unfolding_all rfl)

/-- C1: the claim quantifies over every active, unresolved binary market with
`p_yes + p_no < 1`; at `p_yes = p_no = 0` the analyzer divides
`(1 - total_cost)` by `total_cost = 0` and raises instead of emitting. -/
theorem intra_zero_prices_counterexample :
    ArbScan.analyze_market
      { id := "c1x"
        question := "q"
        active := true
        closed := false
        outcomes := ["Yes", "No"]
        outcome_prices := [0, 0]
        volume := 10000 } = Except.error "ZeroDivisionError" := by
  with_unfolding_all rfl

/-- C1 (amended): for an active, non-closed market with two distinct outcomes
and `0 < p + q < 1`, `_analyze_market` emits an opportunity whose
`total_cost` is `p + q` and whose allocation assigns `price / total_cost`
to each outcome, the two entries summing to 1. -/
theorem intra_binary_emission (m : ArbScan.Market) (a b : String) (p q : ℚ)
    (hact : m.active = true) (hcl : m.closed = false)
    (hout : m.outcomes = [a, b]) (hpr : m.outcome_prices = [p, q])
    (hab : a ≠ b) (hpos : 0 < p + q) (hlt : p + q < 1) :
    ArbScan.analyze_market m = Except.ok (some
      { type := "binary"
        total_cost := p + q
        gross_profit_pct := (1 - (p + q)) / (p + q) * 100
        net_profit_pct :=
          (1 - (p + q)) / (p + q) * 100 - ArbScan.TRADING_FEE * (1 / (p + q)) * 100
        optimal_allocation := [(a, p / (p + q)), (b, q / (p + q))] })
    ∧ p / (p + q) + q / (p + q) = 1 := by
  have hne : p + q ≠ 0 := ne_of_gt hpos
  refine ⟨?_, by rw [div_add_div_same, div_self hne]⟩
  simp only [ArbScan.analyze_market, ArbScan.allocLoop, ArbScan.allocLoop.go, pdiv,
    dictInsert, hact, hcl, hout, hpr, List.length_cons, List.length_nil,
    List.sum_cons, List.sum_nil, add_zero, List.getElem?_cons_zero,
    List.getElem?_cons_succ, List.any_nil, List.any_cons, List.map_nil,
    Bool.not_true, Bool.or_false, List.nil_append]
  norm_num [hne, not_le.mpr hlt, hab, one_div]

/-- C1 witness: the amended theorem applied at prices 0.30 / 0.30. -/
theorem intra_binary_emission_witness :
    ArbScan.analyze_market
      { id := "c1w"
        question := "q"
        active := true
        closed := false
        outcomes := ["Yes", "No"]
        outcome_prices := [3/10, 3/10]
        volume := 500 } = Except.ok (some
      { type := "binary"
        total_cost := 3/10 + 3/10
        gross_profit_pct := (1 - (3/10 + 3/10)) / (3/10 + 3/10) * 100
        net_profit_pct :=
          (1 - (3/10 + 3/10)) / (3/10 + 3/10) * 100
            - ArbScan.TRADING_FEE * (1 / (3/10 + 3/10)) * 100
        optimal_allocation :=
          [("Yes", (3/10) / (3/10 + 3/10)), ("No", (3/10) / (3/10 + 3/10))] })
    ∧ (3/10 : ℚ) / (3/10 + 3/10) + (3/10 : ℚ) / (3/10 + 3/10) = 1 :=
  intra_binary_emission _ "Yes" "No" (3/10) (3/10) rfl rfl rfl rfl
    (by decide) (by norm_num) (by norm_num)

/-- C2: on the market `{Yes: 0.40, No: 0.55}` with the 2% trading fee the
analyzer emits `total_cost = 0.95`, `gross = 100/19 ≈ 5.26`,
`net = 60/19 ≈ 3.16`, the subtracted fee percentage being
`TRADING_FEE * (1/total_cost) * 100 = 40/19 ≈ 2.105`. -/
theorem intra_example_040_055 :
    ArbScan.analyze_market
      { id := "c2"
        question := "q"
        active := true
        closed := false
        outcomes := ["Yes", "No"]
        outcome_prices := [2/5, 11/20]
        volume := 10000 } = Except.ok (some
      { type := "binary"
        total_cost := 19/20
        gross_profit_pct := 100/19
        net_profit_pct := 60/19
        optimal_allocation := [("Yes", 8/19), ("No", 11/19)] })
    ∧ (100 : ℚ)/19 - 60/19 = ArbScan.TRADING_FEE * (1 / (19/20)) * 100
    ∧ |(100 : ℚ)/19 - 526/100| < 1/100
    ∧ |(60 : ℚ)/19 - 316/100| < 1/100
    ∧ |ArbScan.TRADING_FEE * (1 / (19/20)) * 100 - 2105/1000| < 1/1000 := by
  with_unfolding_all decide

/-- C3: whatever the market, if the outcome prices sum to 1 or more the
analyzer emits nothing. -/
theorem intra_no_emission_at_or_above_one (m : ArbScan.Market)
    (h : 1 ≤ m.outcome_prices.sum) :
    ArbScan.analyze_market m = Except.ok none := by
  unfold ArbScan.analyze_market
  split
  · rfl
  · split
    · rfl
    · exact if_pos h

/-- C3 witness: prices 0.60 / 0.60 sum to 1.2, nothing is emitted. -/
theorem intra_no_emission_witness :
    ArbScan.analyze_market
      { id := "c3w"
        question := "q"
        active := true
        closed := false
        outcomes := ["Yes", "No"]
        outcome_prices := [3/5, 3/5]
        volume := 10000 } = Except.ok none :=
  intra_no_emission_at_or_above_one _ (by norm_num)

/-- C8: two well-typed inputs on which the detection code divides by zero —
the intra-platform analyzer on a live binary market priced 0/0, and the
delta in-market rule on a threshold market with `yes = no = 0` and volume
above 5000 (`(1 - total)/total` with `total = 0`). Python raises
`ZeroDivisionError` on both, contradicting the spec's no-exception contract. -/
theorem detection_division_by_zero :
    ArbScan.analyze_market
      { id := "c8a"
        question := "q"
        active := true
        closed := false
        outcomes := ["Yes", "No"]
        outcome_prices := [0, 0]
        volume := 8000 } = Except.error "ZeroDivisionError"
    ∧ DeltaScan.find_inconsistencies "BTC"
      [{ id := "c8b"
         question := "q"
         yes_price := 0
         no_price := 0
         volume := 6000
         threshold := some 100000
         topic := "BTC"
         direction := "unknown" }] = Except.error "ZeroDivisionError" := by
  constructor <;> with_unfolding_all rfl
